import Mathlib

/-!
# Tracking shim (`Emgu.CV.Extern/tracking/tracking_c.cpp`)

A shallow embedding of the C-linkage tracking shim.  The shim forwards every call to
the wrapped vision library, so the library appears here as parameters:

* `Num D`            : the numeric conversions between `int` and `double`;
* `TrackerOps`       : the two methods of the polymorphic `cv::Tracker`;
* `Factory`          : the constructors of the two tracker variants and the allocator;
* `MultiTrackerOps`  : the methods of `cv::MultiTracker`.

Object handles are addresses into an explicit heap (address `0` is the null pointer);
pointers to caller-owned values (`CvRect*`, `std::vector<CvRect>*`, `cv::Tracker**`)
are modelled by passing the pointed-to value in and out; the frame and the aggregator
are passed by value, their handles being taken as valid.  A result `none` stands for
undefined behaviour (a null or dangling tracker handle is dereferenced or deleted).
-/

namespace TrackingShim

/-! ## Plain records crossing the boundary -/

/-- The C record `CvRect`: four `int` fields. -/
structure CvRect where
  x : Int
  y : Int
  width : Int
  height : Int
deriving DecidableEq

/-- The record `cv::Rect2d`, that is `cv::Rect_<double>`, over an abstract type `D` of doubles. -/
structure Rect2d (D : Type) where
  x : D
  y : D
  width : D
  height : D
deriving DecidableEq

/-- The C record `CvSize`: two `int` fields. -/
structure CvSize where
  width : Int
  height : Int
deriving DecidableEq

/-- The record `cv::Size`, that is `cv::Size_<int>`. -/
structure Size where
  width : Int
  height : Int
deriving DecidableEq

/-- The C record `CvTermCriteria`. -/
structure CvTermCriteria (D : Type) where
  type : Int
  max_iter : Int
  epsilon : D
deriving DecidableEq

/-- The record `cv::TermCriteria`. -/
structure TermCriteria (D : Type) where
  type : Int
  maxCount : Int
  epsilon : D
deriving DecidableEq

/-- The numeric conversions of the wrapped library between `int` and `double`:
`ofInt` is the cast `(double)i`, `saturateInt` is `cv::saturate_cast<int>`. -/
structure Num (D : Type) where
  ofInt : Int → D
  saturateInt : D → Int

/-- Default constructor `cv::Rect2d()`: every field is zero. -/
def Rect2d.default {D : Type} (num : Num D) : Rect2d D :=
  ⟨num.ofInt 0, num.ofInt 0, num.ofInt 0, num.ofInt 0⟩

/-- Conversion `CvRect → cv::Rect2d` applied when a `CvRect` is passed where a
`const cv::Rect2d&` is expected: each field is cast to `double`. -/
def toRect2d {D : Type} (num : Num D) (r : CvRect) : Rect2d D :=
  ⟨num.ofInt r.x, num.ofInt r.y, num.ofInt r.width, num.ofInt r.height⟩

/-- Conversion `cv::Rect2d → CvRect` (the integer-rectangle conversion): each field
goes through `saturate_cast<int>`. -/
def toCvRect {D : Type} (num : Num D) (r : Rect2d D) : CvRect :=
  ⟨num.saturateInt r.x, num.saturateInt r.y, num.saturateInt r.width, num.saturateInt r.height⟩

/-- Conversion `CvSize → cv::Size`. -/
def toSize (s : CvSize) : Size := ⟨s.width, s.height⟩

/-- Conversion `CvTermCriteria → cv::TermCriteria`. -/
def toTermCriteria {D : Type} (c : CvTermCriteria D) : TermCriteria D :=
  ⟨c.type, c.max_iter, c.epsilon⟩

/-! ## The heap of tracker instances -/

/-- One live tracker instance: its internal state and the count held by its
reference-counted owner. -/
structure Cell (S : Type) where
  st : S
  refs : Nat
deriving DecidableEq

/-- The heap: which addresses hold a live tracker instance. -/
abbrev Heap (S : Type) := Nat → Option (Cell S)

/-- The heap without any instance. -/
def Heap.empty {S : Type} : Heap S := fun _ => none

/-- Write a cell at an address. -/
def Heap.store {S : Type} (h : Heap S) (a : Nat) (c : Cell S) : Heap S :=
  fun b => if b = a then some c else h b

/-- Destroy the instance at an address. -/
def Heap.free {S : Type} (h : Heap S) (a : Nat) : Heap S :=
  fun b => if b = a then none else h b

/-! ## The wrapped library -/

/-- The two methods of the polymorphic `cv::Tracker` over the internal states `S`
(the variant is part of the state).  `init` takes its box by `const` reference;
`update` takes its box by reference and returns what it leaves there. -/
structure TrackerOps (D Mat S : Type) where
  init : S → Mat → Rect2d D → Bool × S
  update : S → Mat → Rect2d D → Bool × Rect2d D × S

/-- The record `cv::TrackerBoosting::Params`, over an abstract type `F` of floats. -/
structure BoostingParams (F : Type) where
  numClassifiers : Int
  samplerOverlap : F
  samplerSearchFactor : F
  iterationInit : Int
  featureSetNumFeatures : Int
deriving DecidableEq

/-- The record `cv::TrackerMedianFlow::Params`. -/
structure MedianFlowParams (D : Type) where
  pointsInGrid : Int
  winSize : Size
  maxLevel : Int
  termCriteria : TermCriteria D
  winSizeNCC : Size
  maxMedianLengthOfDisplacementDifference : D
deriving DecidableEq

/-- The construction side of the wrapped library: the default parameter records, the
initial internal state of each variant, and the address chosen by the allocator. -/
structure Factory (F D S : Type) where
  boostingDefaults : BoostingParams F
  medianFlowDefaults : MedianFlowParams D
  boostingCreate : BoostingParams F → S
  medianFlowCreate : MedianFlowParams D → S
  alloc : Heap S → Nat

/-- The methods of `cv::MultiTracker` over its internal states `MT`.  `add` receives
the tracker handle, `update` receives the vector it has to fill. -/
structure MultiTrackerOps (D Mat S MT : Type) where
  create : MT
  add : MT → Heap S → Nat → Mat → Rect2d D → Option (Bool × MT × Heap S)
  update : MT → Heap S → Mat → List (Rect2d D) →
    Option (Bool × List (Rect2d D) × MT × Heap S)

/-! ## Reference-counted owner `cv::Ptr` -/

/-- The owner returned by a variant `create`: a fresh instance whose count is one. -/
def Ptr.make {S : Type} (alloc : Heap S → Nat) (st : S) (h : Heap S) : Nat × Heap S :=
  (alloc h, h.store (alloc h) ⟨st, 1⟩)

/-- The method `addref` of the owner: one more reference. -/
def Ptr.addref {S : Type} (h : Heap S) (ptr : Nat) : Heap S :=
  match h ptr with
  | none => h
  | some c => h.store ptr ⟨c.st, c.refs + 1⟩

/-- The method `get` of the owner: the raw address of the instance. -/
def Ptr.get (ptr : Nat) : Nat := ptr

/-- The destructor of the owner: one reference less, and the instance is destroyed
when none is left. -/
def Ptr.release {S : Type} (h : Heap S) (ptr : Nat) : Heap S :=
  match h ptr with
  | none => h
  | some c => if c.refs ≤ 1 then h.free ptr else h.store ptr ⟨c.st, c.refs - 1⟩

/-! ## The shim -/

section Shim

variable {F D Mat S MT : Type}

/-- The assignment `*p = v` to a caller-owned value: the old content is dropped. -/
def assign {α : Type} (_old : α) (v : α) : α := v

/-- Source `cveTrackerInit`: `return tracker->init(*image, *boundingBox);` -/
def cveTrackerInit (num : Num D) (ops : TrackerOps D Mat S) (h : Heap S) (tracker : Nat)
    (image : Mat) (boundingBox : CvRect) : Option (Bool × Heap S) :=
  match h tracker with
  | none => none
  | some c =>
    let r := ops.init c.st image (toRect2d num boundingBox)
    some (r.1, h.store tracker ⟨r.2, c.refs⟩)

/-- Source `cveTrackerUpdate`: a local `cv::Rect2d box` is default-constructed, handed
to `tracker->update`, and copied to `*boundingBox`; the flag of the update is returned.
The argument `boundingBox` is the content of the caller's box on entry; the second
component of the result is its content on return. -/
def cveTrackerUpdate (num : Num D) (ops : TrackerOps D Mat S) (h : Heap S) (tracker : Nat)
    (image : Mat) (boundingBox : CvRect) : Option (Bool × CvRect × Heap S) :=
  let box : Rect2d D := Rect2d.default num
  match h tracker with
  | none => none
  | some c =>
    let r := ops.update c.st image box
    let result := r.1
    let box := r.2.1
    let boundingBox := assign boundingBox (toCvRect num box)
    some (result, boundingBox, h.store tracker ⟨r.2.2, c.refs⟩)

/-- Source `cveTrackerBoostingCreate`.  Returns the concrete handle, the base handle
written to `*tracker`, and the heap. -/
def cveTrackerBoostingCreate (fac : Factory F D S) (h : Heap S) (numClassifiers : Int)
    (samplerOverlap : F) (samplerSearchFactor : F) (iterationInit : Int)
    (featureSetNumFeatures : Int) : Nat × Nat × Heap S :=
  let p := fac.boostingDefaults
  let p := { p with numClassifiers := numClassifiers }
  let p := { p with samplerOverlap := samplerOverlap }
  let p := { p with samplerSearchFactor := samplerSearchFactor }
  let p := { p with iterationInit := iterationInit }
  let p := { p with featureSetNumFeatures := featureSetNumFeatures }
  let made := Ptr.make fac.alloc (fac.boostingCreate p) h
  let ptr := made.1
  let h := Ptr.addref made.2 ptr
  let tracker := Ptr.get ptr
  let ret := Ptr.get ptr
  (ret, tracker, Ptr.release h ptr)

/-- The expression `delete p`: destroys the live instance at `p`, does nothing on the
null pointer, and is undefined on any other address. -/
def deleteTracker (h : Heap S) (p : Nat) : Option (Heap S) :=
  match h p with
  | some _ => some (h.free p)
  | none => if p = 0 then some h else none

/-- Source `cveTrackerBoostingRelease`: `delete *tracker; *tracker = 0;`.  Takes the
content of the caller's handle and returns its new content with the heap. -/
def cveTrackerBoostingRelease (h : Heap S) (tracker : Nat) : Option (Nat × Heap S) :=
  match deleteTracker h tracker with
  | none => none
  | some h => some (0, h)

/-- Source `cveTrackerMedianFlowCreate`.  The sizes and the termination criteria are
the values the caller's pointers designate. -/
def cveTrackerMedianFlowCreate (fac : Factory F D S) (h : Heap S) (pointsInGrid : Int)
    (winSize : CvSize) (maxLevel : Int) (termCriteria : CvTermCriteria D)
    (winSizeNCC : CvSize) (maxMedianLengthOfDisplacementDifference : D) :
    Nat × Nat × Heap S :=
  let p := fac.medianFlowDefaults
  let p := { p with pointsInGrid := pointsInGrid }
  let p := { p with winSize := toSize winSize }
  let p := { p with maxLevel := maxLevel }
  let p := { p with termCriteria := toTermCriteria termCriteria }
  let p := { p with winSizeNCC := toSize winSizeNCC }
  let p := { p with
    maxMedianLengthOfDisplacementDifference := maxMedianLengthOfDisplacementDifference }
  let made := Ptr.make fac.alloc (fac.medianFlowCreate p) h
  let ptr := made.1
  let h := Ptr.addref made.2 ptr
  let tracker := Ptr.get ptr
  let ret := Ptr.get ptr
  (ret, tracker, Ptr.release h ptr)

/-- Source `cveTrackerMedianFlowRelease`: `delete *tracker; *tracker = 0;`. -/
def cveTrackerMedianFlowRelease (h : Heap S) (tracker : Nat) : Option (Nat × Heap S) :=
  match deleteTracker h tracker with
  | none => none
  | some h => some (0, h)

/-- Source `cveMultiTrackerCreate`: `return new cv::MultiTracker();` -/
def cveMultiTrackerCreate (mops : MultiTrackerOps D Mat S MT) : MT :=
  mops.create

/-- Source `cveMultiTrackerAdd`: `return multiTracker->add(tracker, *image, *boundingBox);` -/
def cveMultiTrackerAdd (num : Num D) (mops : MultiTrackerOps D Mat S MT) (multiTracker : MT)
    (h : Heap S) (tracker : Nat) (image : Mat) (boundingBox : CvRect) :
    Option (Bool × MT × Heap S) :=
  mops.add multiTracker h tracker image (toRect2d num boundingBox)

/-- The method `clear` of `std::vector`. -/
def vectorClear {α : Type} (_ : List α) : List α := []

/-- The method `push_back` of `std::vector`. -/
def vectorPushBack {α : Type} (v : List α) (x : α) : List α := v ++ [x]

/-- Source `cveMultiTrackerUpdate`: a local empty vector `bb` is filled by
`tracker->update`, the caller's vector is cleared, and every element of `bb` is pushed
onto it in iteration order.  The argument `boundingBox` is the content of the caller's
vector on entry. -/
def cveMultiTrackerUpdate (num : Num D) (mops : MultiTrackerOps D Mat S MT) (tracker : MT)
    (h : Heap S) (image : Mat) (boundingBox : List CvRect) :
    Option (Bool × List CvRect × MT × Heap S) :=
  let bb : List (Rect2d D) := []
  match mops.update tracker h image bb with
  | none => none
  | some r =>
    let result := r.1
    let bb := r.2.1
    let boundingBox := vectorClear boundingBox
    let boundingBox := bb.foldl (fun acc it => vectorPushBack acc (toCvRect num it)) boundingBox
    some (result, boundingBox, r.2.2.1, r.2.2.2)

/-! ## The aggregator of the wrapped library -/

/-- Modelled from the spec: the state of the class `cv::MultiTracker` of the wrapped
library, whose code is not part of the shim: "owns zero or more Tracker instances plus
one bounding box per instance, in registration order".  A tracker instance is held by
its handle. -/
structure MultiTracker (D : Type) where
  pairs : List (Nat × Rect2d D)
deriving DecidableEq

/-- Modelled from the spec: the constructor of `cv::MultiTracker`: "returns an empty
aggregator". -/
def MultiTracker.create : MultiTracker D := ⟨[]⟩

/-- Modelled from the spec: the method `add` of `cv::MultiTracker`: "registers one
previously-constructed Tracker against one frame/box pair, internally invoking that
tracker's init.  On success, the tracker and its box become a tracked pair at the next
index"; the aggregator "grows by one element per successful add". -/
def MultiTracker.add (ops : TrackerOps D Mat S) (mt : MultiTracker D) (h : Heap S)
    (tracker : Nat) (image : Mat) (box : Rect2d D) :
    Option (Bool × MultiTracker D × Heap S) :=
  match h tracker with
  | none => none
  | some c =>
    let r := ops.init c.st image box
    let h := h.store tracker ⟨r.2, c.refs⟩
    if r.1 then some (true, ⟨mt.pairs ++ [(tracker, box)]⟩, h) else some (false, mt, h)

/-- Modelled from the spec: the loop of the method `update` of `cv::MultiTracker`:
"iterates every registered tracker, in registration order, invokes update on each
against the common frame"; the flag is "true iff every member update succeeded". -/
def MultiTracker.updateAll (ops : TrackerOps D Mat S) (image : Mat) :
    List (Nat × Rect2d D) → Heap S → Option (Bool × List (Nat × Rect2d D) × Heap S)
  | [], h => some (true, [], h)
  | (t, box) :: rest, h =>
    match h t with
    | none => none
    | some c =>
      let r := ops.update c.st image box
      match MultiTracker.updateAll ops image rest (h.store t ⟨r.2.2, c.refs⟩) with
      | none => none
      | some q => some (r.1 && q.1, (t, r.2.1) :: q.2.1, q.2.2)

/-- Modelled from the spec: the method `update` of `cv::MultiTracker`: it "collects
every resulting box into a freshly produced ordered sequence". -/
def MultiTracker.update (ops : TrackerOps D Mat S) (mt : MultiTracker D) (h : Heap S)
    (image : Mat) (_bb : List (Rect2d D)) :
    Option (Bool × List (Rect2d D) × MultiTracker D × Heap S) :=
  match MultiTracker.updateAll ops image mt.pairs h with
  | none => none
  | some q => some (q.1, q.2.1.map Prod.snd, ⟨q.2.1⟩, q.2.2)

/-- Modelled from the spec: the class `cv::MultiTracker` as the aggregator the shim
forwards to. -/
def specMultiTracker (ops : TrackerOps D Mat S) : MultiTrackerOps D Mat S (MultiTracker D) :=
  ⟨MultiTracker.create, MultiTracker.add ops, MultiTracker.update ops⟩

/-! ## Observation devices used by the statements -/

/-- The fallible operations of the wrapped library. -/
inductive Call where
  | trackerInit
  | trackerUpdate
  | multiAdd
  | multiUpdate
deriving DecidableEq

/-- A tracker that behaves like `ops` and appends every call of its methods to a log
kept beside its state. -/
def TrackerOps.logged (ops : TrackerOps D Mat S) : TrackerOps D Mat (S × List Call) :=
  ⟨fun s image box =>
      let r := ops.init s.1 image box
      (r.1, (r.2, s.2 ++ [Call.trackerInit])),
   fun s image box =>
      let r := ops.update s.1 image box
      (r.1, r.2.1, (r.2.2, s.2 ++ [Call.trackerUpdate]))⟩

/-- An aggregator that behaves like `mops` and appends every call of its methods to a
log kept beside its state. -/
def MultiTrackerOps.logged (mops : MultiTrackerOps D Mat S MT) :
    MultiTrackerOps D Mat S (MT × List Call) :=
  ⟨(mops.create, []),
   fun mt h t image box =>
      (mops.add mt.1 h t image box).map
        (fun r => (r.1, (r.2.1, mt.2 ++ [Call.multiAdd]), r.2.2)),
   fun mt h image bb =>
      (mops.update mt.1 h image bb).map
        (fun r => (r.1, r.2.1, (r.2.2.1, mt.2 ++ [Call.multiUpdate]), r.2.2.2))⟩

/-- The tracked pair a successful request leaves in the aggregator. -/
def pairOf (num : Num D) (r : Nat × Mat × CvRect) : Nat × Rect2d D :=
  (r.1, toRect2d num r.2.2)

/-- A run of `cveMultiTrackerAdd` calls, one per request, every one of which
succeeds; `none` when a call fails or is undefined. -/
def addAll (num : Num D) (mops : MultiTrackerOps D Mat S MT) :
    MT → Heap S → List (Nat × Mat × CvRect) → Option (MT × Heap S)
  | mt, h, [] => some (mt, h)
  | mt, h, (t, image, box) :: rest =>
    match cveMultiTrackerAdd num mops mt h t image box with
    | some (true, mt1, h1) => addAll num mops mt1 h1 rest
    | _ => none

/-- The heap once the trackers of the listed requests have had their update on the
frame, one after the other. -/
def turnHeap (num : Num D) (ops : TrackerOps D Mat S) (frame : Mat) :
    List (Nat × Mat × CvRect) → Heap S → Heap S
  | [], h => h
  | (t, _, box) :: rest, h =>
    match h t with
    | none => turnHeap num ops frame rest h
    | some c =>
      turnHeap num ops frame rest
        (h.store t ⟨(ops.update c.st frame (toRect2d num box)).2.2, c.refs⟩)

/-- The box reported by the tracker of the `i`-th request when its turn comes: the
integer conversion of what its own `update` leaves in its box. -/
def reportedBy (num : Num D) (ops : TrackerOps D Mat S) (frame : Mat) (h : Heap S)
    (reqs : List (Nat × Mat × CvRect)) (i : Nat) : Option CvRect :=
  match reqs[i]? with
  | none => none
  | some (t, _, box) =>
    match turnHeap num ops frame (reqs.take i) h t with
    | none => none
    | some c => some (toCvRect num (ops.update c.st frame (toRect2d num box)).2.1)

end Shim

/-! ## Concrete instances -/

/-- Doubles read as integers: the cast is the identity and `saturate_cast<int>` clamps
to the range of a 32-bit `int`. -/
def intNum : Num Int :=
  ⟨fun i => i, fun d => max (-2147483648) (min d 2147483647)⟩

/-- A tracker that remembers the box it was initialised with.  Its `init` accepts every
box; its `update` reports the remembered box, and fails without writing its box when it
was never initialised. -/
def holdTracker : TrackerOps Int Unit (Option (Rect2d Int)) :=
  ⟨fun _ _ box => (true, some box),
   fun s _ box =>
      match s with
      | none => (false, box, s)
      | some b => (true, b, s)⟩

/-- A tracker whose `update` reports the box it is handed, moved by one pixel. -/
def shiftTracker : TrackerOps Int Unit (Option (Rect2d Int)) :=
  ⟨fun _ _ box => (true, some box),
   fun s _ box =>
      match s with
      | none => (false, box, s)
      | some b => (true, if box = ⟨0, 0, 0, 0⟩ then b else ⟨box.x + 1, box.y, box.width, box.height⟩, s)⟩

/-- A factory whose trackers start uninitialised and whose allocator hands out the
address `3`. -/
def holdFactory : Factory Int Int (Option (Rect2d Int)) :=
  ⟨⟨0, 0, 0, 0, 0⟩, ⟨0, ⟨0, 0⟩, 0, ⟨0, 0, 0⟩, ⟨0, 0⟩, 0⟩, fun _ => none, fun _ => none,
   fun _ => 3⟩

/-- A heap with one uninitialised tracker at address `1`. -/
def heapOne : Heap (Option (Rect2d Int)) := Heap.empty.store 1 ⟨none, 1⟩

/-- A heap with one tracker at address `1`, initialised on the box `(10, 10, 50, 50)`. -/
def heapHeld : Heap (Option (Rect2d Int)) := Heap.empty.store 1 ⟨some ⟨10, 10, 50, 50⟩, 1⟩

/-- A heap with two uninitialised trackers, at the addresses `1` and `2`. -/
def heapTwo : Heap (Option (Rect2d Int)) :=
  (Heap.empty.store 1 ⟨none, 1⟩).store 2 ⟨none, 1⟩

/-! ## Lemmas on the heap and on the owner -/

section Lemmas

variable {F D Mat S MT : Type}

theorem Heap.store_same (h : Heap S) (a : Nat) (c : Cell S) : h.store a c a = some c := by
  simp [Heap.store]

theorem Heap.store_other (h : Heap S) (a b : Nat) (c : Cell S) (hb : b ≠ a) :
    h.store a c b = h b := by
  simp [Heap.store, hb]

theorem Heap.free_same (h : Heap S) (a : Nat) : h.free a a = none := by
  simp [Heap.free]

theorem Heap.free_other (h : Heap S) (a b : Nat) (hb : b ≠ a) : h.free a b = h b := by
  simp [Heap.free, hb]

theorem Heap.store_isSome (h : Heap S) (a b : Nat) (c : Cell S) (hb : (h b).isSome) :
    (h.store a c b).isSome := by
  by_cases hab : b = a <;> simp [Heap.store, hab, hb]

/-- The owner built by `create`, with one `addref`, survives its destructor with
count one: the heap is the old one with the new instance stored. -/
theorem Ptr.make_addref_release (alloc : Heap S → Nat) (st : S) (h : Heap S) :
    Ptr.release (Ptr.addref (Ptr.make alloc st h).2 (Ptr.make alloc st h).1)
        (Ptr.make alloc st h).1
      = h.store (alloc h) ⟨st, 1⟩ := by
  funext b
  by_cases hb : b = alloc h <;>
    simp [Ptr.release, Ptr.addref, Ptr.make, Heap.store, Heap.free, hb]

/-- The loop of `push_back` calls appends the converted elements in order. -/
theorem foldl_pushBack (num : Num D) (bb : List (Rect2d D)) (acc : List CvRect) :
    bb.foldl (fun acc it => vectorPushBack acc (toCvRect num it)) acc
      = acc ++ bb.map (toCvRect num) := by
  induction bb generalizing acc with
  | nil => simp
  | cons x xs ih => rw [List.foldl_cons, ih]; simp [vectorPushBack]

/-- The shim update in closed form, given the result of the underlying batch update. -/
theorem cveMultiTrackerUpdate_eq (num : Num D) (mops : MultiTrackerOps D Mat S MT)
    (mt : MT) (h : Heap S) (image : Mat) (prior : List CvRect)
    (r : Bool × List (Rect2d D) × MT × Heap S) (hr : mops.update mt h image [] = some r) :
    cveMultiTrackerUpdate num mops mt h image prior
      = some (r.1, r.2.1.map (toCvRect num), r.2.2.1, r.2.2.2) := by
  simp [cveMultiTrackerUpdate, hr, foldl_pushBack, vectorClear]

end Lemmas

/-! ## Properties of the shim -/

section Properties

variable {F D Mat S MT : Type}

/-- C2: whatever the caller's output sequence held, and whatever sequence `bb` the
underlying batch update produced, `cveMultiTrackerUpdate` leaves in the output
sequence exactly the integer-rectangle conversion of each element of `bb`, same
length, same order; two calls that differ only in the prior content agree. -/
theorem cveMultiTrackerUpdate_output (num : Num D) (mops : MultiTrackerOps D Mat S MT)
    (mt : MT) (h : Heap S) (image : Mat) (prior prior2 : List CvRect)
    (r : Bool × List (Rect2d D) × MT × Heap S) (hr : mops.update mt h image [] = some r) :
    cveMultiTrackerUpdate num mops mt h image prior
        = some (r.1, r.2.1.map (toCvRect num), r.2.2.1, r.2.2.2)
      ∧ (r.2.1.map (toCvRect num)).length = r.2.1.length
      ∧ cveMultiTrackerUpdate num mops mt h image prior
          = cveMultiTrackerUpdate num mops mt h image prior2 := by
  refine ⟨cveMultiTrackerUpdate_eq num mops mt h image prior r hr, by simp, ?_⟩
  rw [cveMultiTrackerUpdate_eq num mops mt h image prior r hr,
    cveMultiTrackerUpdate_eq num mops mt h image prior2 r hr]

/-- Witness of C2 on the aggregator holding one initialised tracker. -/
theorem cveMultiTrackerUpdate_output_witness :
    cveMultiTrackerUpdate intNum (specMultiTracker holdTracker) ⟨[(1, ⟨10, 10, 50, 50⟩)]⟩
        heapHeld () [⟨7, 7, 7, 7⟩, ⟨8, 8, 8, 8⟩]
        = some (true, [(⟨10, 10, 50, 50⟩ : Rect2d Int)].map (toCvRect intNum),
            ⟨[(1, ⟨10, 10, 50, 50⟩)]⟩,
            heapHeld.store 1 ⟨some ⟨10, 10, 50, 50⟩, 1⟩)
      ∧ ([(⟨10, 10, 50, 50⟩ : Rect2d Int)].map (toCvRect intNum)).length = 1
      ∧ cveMultiTrackerUpdate intNum (specMultiTracker holdTracker)
          ⟨[(1, ⟨10, 10, 50, 50⟩)]⟩ heapHeld () [⟨7, 7, 7, 7⟩, ⟨8, 8, 8, 8⟩]
          = cveMultiTrackerUpdate intNum (specMultiTracker holdTracker)
              ⟨[(1, ⟨10, 10, 50, 50⟩)]⟩ heapHeld () [] :=
  cveMultiTrackerUpdate_output intNum (specMultiTracker holdTracker)
    ⟨[(1, ⟨10, 10, 50, 50⟩)]⟩ heapHeld () [⟨7, 7, 7, 7⟩, ⟨8, 8, 8, 8⟩] []
    (true, [⟨10, 10, 50, 50⟩], ⟨[(1, ⟨10, 10, 50, 50⟩)]⟩,
      heapHeld.store 1 ⟨some ⟨10, 10, 50, 50⟩, 1⟩) rfl

/-- C3, as stated, fails: on a tracker whose `update` fails without writing its box
(here: one that was never initialised) the flag is false and the caller's box
`(10, 10, 50, 50)` is replaced by the conversion of the default-constructed box, the
all-zero rectangle. -/
theorem cveTrackerUpdate_default_on_failure :
    (cveTrackerUpdate intNum holdTracker heapOne 1 () ⟨10, 10, 50, 50⟩).map
        (fun r => (r.1, r.2.1))
        = some (false, toCvRect intNum (Rect2d.default intNum))
      ∧ toCvRect intNum (Rect2d.default intNum) = ⟨0, 0, 0, 0⟩ := by
  decide

/-- C3, amended: for every live tracker and every frame, `cveTrackerUpdate` returns the
flag of the underlying `update` and writes into the caller's box the integer-rectangle
conversion of what that `update` left in a local box that started default-constructed,
whether the flag is true or false; the instance keeps the state the `update` left. -/
theorem cveTrackerUpdate_writes_box (num : Num D) (ops : TrackerOps D Mat S) (h : Heap S)
    (t : Nat) (c : Cell S) (image : Mat) (prior : CvRect) (hc : h t = some c) :
    cveTrackerUpdate num ops h t image prior
      = some ((ops.update c.st image (Rect2d.default num)).1,
          toCvRect num (ops.update c.st image (Rect2d.default num)).2.1,
          h.store t ⟨(ops.update c.st image (Rect2d.default num)).2.2, c.refs⟩) := by
  simp [cveTrackerUpdate, assign, hc]

/-- Witness of the amended C3 on an initialised tracker. -/
theorem cveTrackerUpdate_writes_box_witness :
    cveTrackerUpdate intNum holdTracker heapHeld 1 () ⟨0, 0, 1, 1⟩
      = some ((holdTracker.update (some ⟨10, 10, 50, 50⟩) () (Rect2d.default intNum)).1,
          toCvRect intNum
            (holdTracker.update (some ⟨10, 10, 50, 50⟩) () (Rect2d.default intNum)).2.1,
          heapHeld.store 1
            ⟨(holdTracker.update (some ⟨10, 10, 50, 50⟩) () (Rect2d.default intNum)).2.2,
              1⟩) :=
  cveTrackerUpdate_writes_box intNum holdTracker heapHeld 1 ⟨some ⟨10, 10, 50, 50⟩, 1⟩ ()
    ⟨0, 0, 1, 1⟩ rfl

/-- C4: each fallible shim operation calls the corresponding operation of the wrapped
library exactly once (the log of calls grows by exactly that one call), returns exactly
the flag that call produced, and leaves the state that call produced. -/
theorem shim_forwards_once (num : Num D) (ops : TrackerOps D Mat S)
    (mops : MultiTrackerOps D Mat S MT) (h : Heap (S × List Call)) (t : Nat) (st : S)
    (log : List Call) (refs : Nat) (hlive : h t = some ⟨(st, log), refs⟩)
    (hm : Heap S) (mt : MT) (mlog : List Call) (tr : Nat) (image : Mat) (box : CvRect)
    (prior : CvRect) (priorOut : List CvRect) :
    cveTrackerInit num ops.logged h t image box
        = some ((ops.init st image (toRect2d num box)).1,
            h.store t ⟨((ops.init st image (toRect2d num box)).2,
              log ++ [Call.trackerInit]), refs⟩)
      ∧ (cveTrackerUpdate num ops.logged h t image prior).map (fun r => (r.1, r.2.2))
        = some ((ops.update st image (Rect2d.default num)).1,
            h.store t ⟨((ops.update st image (Rect2d.default num)).2.2,
              log ++ [Call.trackerUpdate]), refs⟩)
      ∧ cveMultiTrackerAdd num mops.logged (mt, mlog) hm tr image box
        = (mops.add mt hm tr image (toRect2d num box)).map
            (fun r => (r.1, (r.2.1, mlog ++ [Call.multiAdd]), r.2.2))
      ∧ (cveMultiTrackerUpdate num mops.logged (mt, mlog) hm image priorOut).map
            (fun r => (r.1, r.2.2.1, r.2.2.2))
        = (mops.update mt hm image []).map
            (fun r => (r.1, (r.2.2.1, mlog ++ [Call.multiUpdate]), r.2.2.2)) := by
  refine ⟨?_, ?_, ?_, ?_⟩
  · simp [cveTrackerInit, hlive, TrackerOps.logged]
  · simp [cveTrackerUpdate, assign, hlive, TrackerOps.logged]
  · simp [cveMultiTrackerAdd, MultiTrackerOps.logged]
  · simp only [cveMultiTrackerUpdate, MultiTrackerOps.logged]
    cases mops.update mt hm image [] <;> simp

/-- Witness of C4: a tracker whose log holds one earlier call, an aggregator with an
empty log. -/
theorem shim_forwards_once_witness :
    cveTrackerInit intNum holdTracker.logged
        (Heap.empty.store 1 ⟨(none, [Call.trackerUpdate]), 1⟩) 1 () ⟨10, 10, 50, 50⟩
        = some ((holdTracker.init none () (toRect2d intNum ⟨10, 10, 50, 50⟩)).1,
            (Heap.empty.store 1 ⟨(none, [Call.trackerUpdate]), 1⟩).store 1
              ⟨((holdTracker.init none () (toRect2d intNum ⟨10, 10, 50, 50⟩)).2,
                [Call.trackerUpdate] ++ [Call.trackerInit]), 1⟩)
      ∧ (cveTrackerUpdate intNum holdTracker.logged
            (Heap.empty.store 1 ⟨(none, [Call.trackerUpdate]), 1⟩) 1 () ⟨1, 2, 3, 4⟩).map
          (fun r => (r.1, r.2.2))
        = some ((holdTracker.update none () (Rect2d.default intNum)).1,
            (Heap.empty.store 1 ⟨(none, [Call.trackerUpdate]), 1⟩).store 1
              ⟨((holdTracker.update none () (Rect2d.default intNum)).2.2,
                [Call.trackerUpdate] ++ [Call.trackerUpdate]), 1⟩)
      ∧ cveMultiTrackerAdd intNum (specMultiTracker holdTracker).logged (⟨[]⟩, []) heapOne 1
          () ⟨10, 10, 50, 50⟩
        = ((specMultiTracker holdTracker).add ⟨[]⟩ heapOne 1 ()
            (toRect2d intNum ⟨10, 10, 50, 50⟩)).map
            (fun r => (r.1, (r.2.1, [] ++ [Call.multiAdd]), r.2.2))
      ∧ (cveMultiTrackerUpdate intNum (specMultiTracker holdTracker).logged (⟨[]⟩, [])
            heapOne () [⟨9, 9, 9, 9⟩]).map (fun r => (r.1, r.2.2.1, r.2.2.2))
        = ((specMultiTracker holdTracker).update ⟨[]⟩ heapOne () []).map
            (fun r => (r.1, (r.2.2.1, [] ++ [Call.multiUpdate]), r.2.2.2)) :=
  shim_forwards_once intNum holdTracker (specMultiTracker holdTracker)
    (Heap.empty.store 1 ⟨(none, [Call.trackerUpdate]), 1⟩) 1 none [Call.trackerUpdate] 1 rfl
    heapOne ⟨[]⟩ [] 1 () ⟨10, 10, 50, 50⟩ ⟨1, 2, 3, 4⟩ [⟨9, 9, 9, 9⟩]

/-- C5: for all input values, each variant factory constructs the underlying tracker
from a parameter record whose fields are exactly the inputs, in their places: the five
scalars for the boosting tracker; the grid count, the two sizes, the level, the
termination criteria and the displacement bound for the median-flow tracker, the sizes
and the criteria being the values the caller's pointers designate.  Nothing is
rejected: the instance is live under the returned handle. -/
theorem factories_pass_parameters (fac : Factory F D S) (h : Heap S) (numClassifiers : Int)
    (samplerOverlap samplerSearchFactor : F) (iterationInit featureSetNumFeatures : Int)
    (pointsInGrid : Int) (winSize : CvSize) (maxLevel : Int)
    (termCriteria : CvTermCriteria D) (winSizeNCC : CvSize)
    (maxMedianLengthOfDisplacementDifference : D) :
    (cveTrackerBoostingCreate fac h numClassifiers samplerOverlap samplerSearchFactor
        iterationInit featureSetNumFeatures).2.2
        (cveTrackerBoostingCreate fac h numClassifiers samplerOverlap samplerSearchFactor
          iterationInit featureSetNumFeatures).1
        = some ⟨fac.boostingCreate
            ⟨numClassifiers, samplerOverlap, samplerSearchFactor, iterationInit,
              featureSetNumFeatures⟩, 1⟩
      ∧ (cveTrackerMedianFlowCreate fac h pointsInGrid winSize maxLevel termCriteria
          winSizeNCC maxMedianLengthOfDisplacementDifference).2.2
          (cveTrackerMedianFlowCreate fac h pointsInGrid winSize maxLevel termCriteria
            winSizeNCC maxMedianLengthOfDisplacementDifference).1
        = some ⟨fac.medianFlowCreate
            ⟨pointsInGrid, ⟨winSize.width, winSize.height⟩, maxLevel,
              ⟨termCriteria.type, termCriteria.max_iter, termCriteria.epsilon⟩,
              ⟨winSizeNCC.width, winSizeNCC.height⟩,
              maxMedianLengthOfDisplacementDifference⟩, 1⟩ := by
  constructor
  · simp only [cveTrackerBoostingCreate, Ptr.get, Ptr.make_addref_release]
    simp [Ptr.make, Heap.store]
  · simp only [cveTrackerMedianFlowCreate, Ptr.get, Ptr.make_addref_release]
    simp [Ptr.make, Heap.store, toSize, toTermCriteria]

/-- C6: for every call of either variant factory, the base-typed handle written to the
caller's out parameter equals the concrete-typed handle returned; both are the address
the allocator gave to the instance constructed by this call, which is live there with
one reference, and no other address of the heap is touched. -/
theorem factories_alias_handles (fac : Factory F D S) (h : Heap S) (numClassifiers : Int)
    (samplerOverlap samplerSearchFactor : F) (iterationInit featureSetNumFeatures : Int)
    (pointsInGrid : Int) (winSize : CvSize) (maxLevel : Int)
    (termCriteria : CvTermCriteria D) (winSizeNCC : CvSize)
    (maxMedianLengthOfDisplacementDifference : D) :
    ((cveTrackerBoostingCreate fac h numClassifiers samplerOverlap samplerSearchFactor
          iterationInit featureSetNumFeatures).2.1
        = (cveTrackerBoostingCreate fac h numClassifiers samplerOverlap samplerSearchFactor
          iterationInit featureSetNumFeatures).1
      ∧ (cveTrackerBoostingCreate fac h numClassifiers samplerOverlap samplerSearchFactor
          iterationInit featureSetNumFeatures).1 = fac.alloc h
      ∧ (∃ p, (cveTrackerBoostingCreate fac h numClassifiers samplerOverlap
          samplerSearchFactor iterationInit featureSetNumFeatures).2.2
            = h.store (fac.alloc h) ⟨fac.boostingCreate p, 1⟩))
    ∧ ((cveTrackerMedianFlowCreate fac h pointsInGrid winSize maxLevel termCriteria
          winSizeNCC maxMedianLengthOfDisplacementDifference).2.1
        = (cveTrackerMedianFlowCreate fac h pointsInGrid winSize maxLevel termCriteria
          winSizeNCC maxMedianLengthOfDisplacementDifference).1
      ∧ (cveTrackerMedianFlowCreate fac h pointsInGrid winSize maxLevel termCriteria
          winSizeNCC maxMedianLengthOfDisplacementDifference).1 = fac.alloc h
      ∧ (∃ p, (cveTrackerMedianFlowCreate fac h pointsInGrid winSize maxLevel termCriteria
          winSizeNCC maxMedianLengthOfDisplacementDifference).2.2
            = h.store (fac.alloc h) ⟨fac.medianFlowCreate p, 1⟩)) := by
  refine ⟨⟨rfl, rfl, ?_⟩, ⟨rfl, rfl, ?_⟩⟩
  · refine ⟨⟨numClassifiers, samplerOverlap, samplerSearchFactor, iterationInit,
      featureSetNumFeatures⟩, ?_⟩
    simp only [cveTrackerBoostingCreate, Ptr.make_addref_release]
  · refine ⟨⟨pointsInGrid, toSize winSize, maxLevel, toTermCriteria termCriteria,
      toSize winSizeNCC, maxMedianLengthOfDisplacementDifference⟩, ?_⟩
    simp only [cveTrackerMedianFlowCreate, Ptr.make_addref_release]

/-- C7: for a tracker created by either variant factory and still live, whatever heap
the program has reached since, the release operation returns, destroys the instance,
sets the caller's concrete handle to null, leaves no live tracker under the base-typed
handle obtained from the factory, and changes nothing at any other address. -/
theorem release_invalidates_both_handles (fac : Factory F D S) (h0 : Heap S)
    (numClassifiers : Int) (samplerOverlap samplerSearchFactor : F)
    (iterationInit featureSetNumFeatures : Int) (pointsInGrid : Int) (winSize : CvSize)
    (maxLevel : Int) (termCriteria : CvTermCriteria D) (winSizeNCC : CvSize)
    (maxMedianLengthOfDisplacementDifference : D) (hb hm : Heap S) (cb cm : Cell S)
    (hliveb : hb (cveTrackerBoostingCreate fac h0 numClassifiers samplerOverlap
      samplerSearchFactor iterationInit featureSetNumFeatures).1 = some cb)
    (hlivem : hm (cveTrackerMedianFlowCreate fac h0 pointsInGrid winSize maxLevel
      termCriteria winSizeNCC maxMedianLengthOfDisplacementDifference).1 = some cm) :
    (∃ h1, cveTrackerBoostingRelease hb
          (cveTrackerBoostingCreate fac h0 numClassifiers samplerOverlap
            samplerSearchFactor iterationInit featureSetNumFeatures).1 = some (0, h1)
      ∧ h1 (cveTrackerBoostingCreate fac h0 numClassifiers samplerOverlap
            samplerSearchFactor iterationInit featureSetNumFeatures).1 = none
      ∧ h1 (cveTrackerBoostingCreate fac h0 numClassifiers samplerOverlap
            samplerSearchFactor iterationInit featureSetNumFeatures).2.1 = none
      ∧ ∀ b, b ≠ (cveTrackerBoostingCreate fac h0 numClassifiers samplerOverlap
            samplerSearchFactor iterationInit featureSetNumFeatures).1 → h1 b = hb b)
    ∧ (∃ h1, cveTrackerMedianFlowRelease hm
          (cveTrackerMedianFlowCreate fac h0 pointsInGrid winSize maxLevel termCriteria
            winSizeNCC maxMedianLengthOfDisplacementDifference).1 = some (0, h1)
      ∧ h1 (cveTrackerMedianFlowCreate fac h0 pointsInGrid winSize maxLevel termCriteria
            winSizeNCC maxMedianLengthOfDisplacementDifference).1 = none
      ∧ h1 (cveTrackerMedianFlowCreate fac h0 pointsInGrid winSize maxLevel termCriteria
            winSizeNCC maxMedianLengthOfDisplacementDifference).2.1 = none
      ∧ ∀ b, b ≠ (cveTrackerMedianFlowCreate fac h0 pointsInGrid winSize maxLevel
            termCriteria winSizeNCC maxMedianLengthOfDisplacementDifference).1 →
          h1 b = hm b) := by
  constructor
  · refine ⟨hb.free _, ?_, Heap.free_same _ _, Heap.free_same _ _, ?_⟩
    · simp [cveTrackerBoostingRelease, deleteTracker, hliveb]
    · intro b hne; exact Heap.free_other _ _ _ hne
  · refine ⟨hm.free _, ?_, Heap.free_same _ _, Heap.free_same _ _, ?_⟩
    · simp [cveTrackerMedianFlowRelease, deleteTracker, hlivem]
    · intro b hne; exact Heap.free_other _ _ _ hne

/-- Witness of C7: release right after creation, on the heap the factory returned. -/
theorem release_invalidates_both_handles_witness :
    (∃ h1, cveTrackerBoostingRelease
          (cveTrackerBoostingCreate holdFactory heapTwo 100 99 18 50 250).2.2
          (cveTrackerBoostingCreate holdFactory heapTwo 100 99 18 50 250).1 = some (0, h1)
      ∧ h1 (cveTrackerBoostingCreate holdFactory heapTwo 100 99 18 50 250).1 = none
      ∧ h1 (cveTrackerBoostingCreate holdFactory heapTwo 100 99 18 50 250).2.1 = none
      ∧ ∀ b, b ≠ (cveTrackerBoostingCreate holdFactory heapTwo 100 99 18 50 250).1 →
          h1 b = (cveTrackerBoostingCreate holdFactory heapTwo 100 99 18 50 250).2.2 b)
    ∧ (∃ h1, cveTrackerMedianFlowRelease
          (cveTrackerMedianFlowCreate holdFactory heapTwo 10 ⟨3, 3⟩ 5 ⟨3, 20, 1⟩ ⟨30, 30⟩
            10).2.2
          (cveTrackerMedianFlowCreate holdFactory heapTwo 10 ⟨3, 3⟩ 5 ⟨3, 20, 1⟩ ⟨30, 30⟩
            10).1 = some (0, h1)
      ∧ h1 (cveTrackerMedianFlowCreate holdFactory heapTwo 10 ⟨3, 3⟩ 5 ⟨3, 20, 1⟩ ⟨30, 30⟩
            10).1 = none
      ∧ h1 (cveTrackerMedianFlowCreate holdFactory heapTwo 10 ⟨3, 3⟩ 5 ⟨3, 20, 1⟩ ⟨30, 30⟩
            10).2.1 = none
      ∧ ∀ b, b ≠ (cveTrackerMedianFlowCreate holdFactory heapTwo 10 ⟨3, 3⟩ 5 ⟨3, 20, 1⟩
            ⟨30, 30⟩ 10).1 →
          h1 b = (cveTrackerMedianFlowCreate holdFactory heapTwo 10 ⟨3, 3⟩ 5 ⟨3, 20, 1⟩
            ⟨30, 30⟩ 10).2.2 b) :=
  release_invalidates_both_handles holdFactory heapTwo 100 99 18 50 250 10 ⟨3, 3⟩ 5
    ⟨3, 20, 1⟩ ⟨30, 30⟩ 10
    (cveTrackerBoostingCreate holdFactory heapTwo 100 99 18 50 250).2.2
    (cveTrackerMedianFlowCreate holdFactory heapTwo 10 ⟨3, 3⟩ 5 ⟨3, 20, 1⟩ ⟨30, 30⟩ 10).2.2
    ⟨none, 1⟩ ⟨none, 1⟩ rfl rfl

/-- C8: for every frame and every prior content of the output sequence, the update of
an aggregator freshly returned by `cveMultiTrackerCreate`, to which no tracker was
added, returns true and leaves the output sequence empty (the aggregator being the one
modelled from the spec). -/
theorem fresh_multiTracker_update (num : Num D) (ops : TrackerOps D Mat S) (h : Heap S)
    (frame : Mat) (prior : List CvRect) :
    cveMultiTrackerUpdate num (specMultiTracker ops)
        (cveMultiTrackerCreate (specMultiTracker ops)) h frame prior
      = some (true, [], cveMultiTrackerCreate (specMultiTracker ops), h) := by
  rfl

/-- C9, as stated, fails: the shim checks nothing, and a tracker whose `init` accepts
every box makes `cveTrackerInit` return true on a box of zero width. -/
theorem cveTrackerInit_accepts_degenerate :
    (⟨10, 10, 0, 50⟩ : CvRect).width = 0
      ∧ (cveTrackerInit intNum holdTracker heapOne 1 () ⟨10, 10, 0, 50⟩).map Prod.fst
          = some true := by
  decide

/-- C9, amended: for every live tracker, frame and initial box, `cveTrackerInit`
returns exactly the flag of the underlying `init` on the frame and the floating-point
conversion of the box; it returns false on a box, degenerate or not, exactly when the
underlying `init` rejects it. -/
theorem cveTrackerInit_flag (num : Num D) (ops : TrackerOps D Mat S) (h : Heap S) (t : Nat)
    (c : Cell S) (image : Mat) (box : CvRect) (hc : h t = some c) :
    (cveTrackerInit num ops h t image box).map Prod.fst
        = some (ops.init c.st image (toRect2d num box)).1
      ∧ ((cveTrackerInit num ops h t image box).map Prod.fst = some false
          ↔ (ops.init c.st image (toRect2d num box)).1 = false) := by
  simp [cveTrackerInit, hc]

/-- Witness of the amended C9 on an uninitialised tracker. -/
theorem cveTrackerInit_flag_witness :
    (cveTrackerInit intNum holdTracker heapOne 1 () ⟨10, 10, 50, 50⟩).map Prod.fst
        = some (holdTracker.init none () (toRect2d intNum ⟨10, 10, 50, 50⟩)).1
      ∧ ((cveTrackerInit intNum holdTracker heapOne 1 () ⟨10, 10, 50, 50⟩).map Prod.fst
            = some false
          ↔ (holdTracker.init none () (toRect2d intNum ⟨10, 10, 50, 50⟩)).1 = false) :=
  cveTrackerInit_flag intNum holdTracker heapOne 1 ⟨none, 1⟩ () ⟨10, 10, 50, 50⟩ rfl

/-- C10: the outcome of `cveTrackerUpdate` does not depend on what the caller's box
holds on entry.  The underlying `update` is handed the default-constructed box only:
two trackers that agree on that box give the same flag, box and heap whatever the two
incoming boxes are; in particular one tracker called with two incoming boxes.  On a
live tracker the call returns. -/
theorem cveTrackerUpdate_ignores_incoming (num : Num D) (ops ops2 : TrackerOps D Mat S)
    (h : Heap S) (t : Nat) (image : Mat) (b1 b2 : CvRect)
    (hagree : ∀ s, ops.update s image (Rect2d.default num)
      = ops2.update s image (Rect2d.default num)) :
    cveTrackerUpdate num ops h t image b1 = cveTrackerUpdate num ops h t image b2
      ∧ cveTrackerUpdate num ops h t image b1 = cveTrackerUpdate num ops2 h t image b2
      ∧ ((h t).isSome → (cveTrackerUpdate num ops h t image b1).isSome) := by
  refine ⟨rfl, ?_, ?_⟩
  · cases hc : h t <;> simp [cveTrackerUpdate, assign, hc, hagree]
  · cases hc : h t <;> simp [cveTrackerUpdate, assign, hc]

/-- Witness of C10: two trackers that differ on every box but the default one. -/
theorem cveTrackerUpdate_ignores_incoming_witness :
    cveTrackerUpdate intNum holdTracker heapHeld 1 () ⟨1, 2, 3, 4⟩
        = cveTrackerUpdate intNum holdTracker heapHeld 1 () ⟨5, 6, 7, 8⟩
      ∧ cveTrackerUpdate intNum holdTracker heapHeld 1 () ⟨1, 2, 3, 4⟩
        = cveTrackerUpdate intNum shiftTracker heapHeld 1 () ⟨5, 6, 7, 8⟩
      ∧ ((heapHeld 1).isSome →
          (cveTrackerUpdate intNum holdTracker heapHeld 1 () ⟨1, 2, 3, 4⟩).isSome) :=
  cveTrackerUpdate_ignores_incoming intNum holdTracker shiftTracker heapHeld 1 ()
    ⟨1, 2, 3, 4⟩ ⟨5, 6, 7, 8⟩ (by intro s; cases s <;> rfl)

end Properties

section Aggregator

variable {F D Mat S MT : Type}

/-- A run of successful adds on the modelled aggregator appends one pair per request,
in order, and every added tracker is live afterwards. -/
theorem addAll_spec (num : Num D) (ops : TrackerOps D Mat S) (reqs : List (Nat × Mat × CvRect)) :
    ∀ (mt : MultiTracker D) (h : Heap S) (mt1 : MultiTracker D) (h1 : Heap S),
      addAll num (specMultiTracker ops) mt h reqs = some (mt1, h1) →
      mt1.pairs = mt.pairs ++ reqs.map (pairOf num)
        ∧ (∀ a, (h a).isSome → (h1 a).isSome)
        ∧ (∀ r ∈ reqs, (h1 r.1).isSome) := by
  induction reqs with
  | nil =>
    intro mt h mt1 h1 hadd
    simp [addAll] at hadd
    obtain ⟨rfl, rfl⟩ := hadd
    simp
  | cons x rest ih =>
    intro mt h mt1 h1 hadd
    obtain ⟨t, image, box⟩ := x
    simp only [addAll, cveMultiTrackerAdd, specMultiTracker, MultiTracker.add] at hadd
    cases hc : h t with
    | none => simp [hc] at hadd
    | some c =>
      simp only [hc] at hadd
      by_cases hflag : (ops.init c.st image (toRect2d num box)).1 = true
      · simp only [hflag, if_true] at hadd
        obtain ⟨hp, hmono, hlive⟩ := ih _ _ _ _ hadd
        refine ⟨?_, ?_, ?_⟩
        · simp [hp, pairOf]
        · intro a ha
          exact hmono a (Heap.store_isSome h t a _ ha)
        · intro r hr
          rcases List.mem_cons.mp hr with rfl | hr
          · exact hmono t (by simp [Heap.store])
          · exact hlive r hr
      · simp [hflag] at hadd

/-- The loop of the modelled aggregator over live trackers returns one box per tracker,
each the box its tracker reports when its turn comes. -/
theorem updateAll_spec (num : Num D) (ops : TrackerOps D Mat S) (frame : Mat)
    (reqs : List (Nat × Mat × CvRect)) :
    ∀ (h : Heap S), (∀ r ∈ reqs, (h r.1).isSome) →
      ∃ q, MultiTracker.updateAll ops frame (reqs.map (pairOf num)) h = some q
        ∧ q.2.1.length = reqs.length
        ∧ ∀ i, i < reqs.length →
            ((q.2.1.map Prod.snd).map (toCvRect num))[i]? = reportedBy num ops frame h reqs i := by
  induction reqs with
  | nil =>
    intro h _
    exact ⟨(true, [], h), rfl, rfl, by intro i hi; simp at hi⟩
  | cons x rest ih =>
    intro h hlive
    obtain ⟨t, image, box⟩ := x
    have ht : (h t).isSome := hlive (t, image, box) (List.mem_cons_self _ _)
    obtain ⟨c, hc⟩ := Option.isSome_iff_exists.mp ht
    have hrest : ∀ r ∈ rest,
        ((h.store t ⟨(ops.update c.st frame (toRect2d num box)).2.2, c.refs⟩) r.1).isSome := by
      intro r hr
      exact Heap.store_isSome h t r.1 _ (hlive r (List.mem_cons_of_mem _ hr))
    obtain ⟨q, hq, hlen, hbox⟩ := ih _ hrest
    refine ⟨((ops.update c.st frame (toRect2d num box)).1 && q.1,
      (t, (ops.update c.st frame (toRect2d num box)).2.1) :: q.2.1, q.2.2), ?_, ?_, ?_⟩
    · simp only [List.map_cons, pairOf, MultiTracker.updateAll, hc]
      rw [hq]
    · simp [hlen]
    · intro i hi
      cases i with
      | zero => simp [reportedBy, turnHeap, hc]
      | succ j =>
        have hj : j < rest.length := by simpa using hi
        have := hbox j hj
        simp only [List.map_cons, List.getElem?_cons_succ]
        rw [this]
        simp [reportedBy, turnHeap, hc]

/-- C1: on the aggregator modelled from the spec, after `cveMultiTrackerCreate` and `N`
successful `cveMultiTrackerAdd` calls, for every frame and every prior content of the
output sequence, `cveMultiTrackerUpdate` returns, the output sequence holds exactly `N`
boxes, and the `i`-th box is the one reported by the tracker of the `i`-th add, in the
order of the adds (whatever the flag, so in particular when it is true). -/
theorem multiTracker_update_reports_in_order (num : Num D) (ops : TrackerOps D Mat S)
    (h0 : Heap S) (reqs : List (Nat × Mat × CvRect)) (mt : MultiTracker D) (h : Heap S)
    (hadd : addAll num (specMultiTracker ops) (cveMultiTrackerCreate (specMultiTracker ops))
      h0 reqs = some (mt, h))
    (frame : Mat) (prior : List CvRect) :
    ∃ r, cveMultiTrackerUpdate num (specMultiTracker ops) mt h frame prior = some r
      ∧ r.2.1.length = reqs.length
      ∧ ∀ i, i < reqs.length → r.2.1[i]? = reportedBy num ops frame h reqs i := by
  obtain ⟨hp, _, hlive⟩ := addAll_spec num ops reqs _ _ _ _ hadd
  have hp2 : mt.pairs = reqs.map (pairOf num) := by
    simpa [cveMultiTrackerCreate, specMultiTracker, MultiTracker.create] using hp
  obtain ⟨q, hq, hlen, hbox⟩ := updateAll_spec num ops frame reqs h hlive
  have hu : (specMultiTracker ops).update mt h frame []
      = some (q.1, q.2.1.map Prod.snd, ⟨q.2.1⟩, q.2.2) := by
    simp [specMultiTracker, MultiTracker.update, hp2, hq]
  exact ⟨_, cveMultiTrackerUpdate_eq num (specMultiTracker ops) mt h frame prior _ hu,
    by simp [hlen], hbox⟩

/-- Witness of C1: two trackers added in the order `1`, `2`. -/
theorem multiTracker_update_reports_in_order_witness :
    ∃ r, cveMultiTrackerUpdate intNum (specMultiTracker holdTracker)
          ⟨[(1, ⟨10, 10, 50, 50⟩), (2, ⟨1, 2, 3, 4⟩)]⟩
          ((heapTwo.store 1 ⟨some ⟨10, 10, 50, 50⟩, 1⟩).store 2 ⟨some ⟨1, 2, 3, 4⟩, 1⟩)
          () [⟨9, 9, 9, 9⟩] = some r
      ∧ r.2.1.length = [(1, (), (⟨10, 10, 50, 50⟩ : CvRect)), (2, (), ⟨1, 2, 3, 4⟩)].length
      ∧ ∀ i, i < [(1, (), (⟨10, 10, 50, 50⟩ : CvRect)), (2, (), ⟨1, 2, 3, 4⟩)].length →
          r.2.1[i]? = reportedBy intNum holdTracker ()
            ((heapTwo.store 1 ⟨some ⟨10, 10, 50, 50⟩, 1⟩).store 2 ⟨some ⟨1, 2, 3, 4⟩, 1⟩)
            [(1, (), ⟨10, 10, 50, 50⟩), (2, (), ⟨1, 2, 3, 4⟩)] i :=
  multiTracker_update_reports_in_order intNum holdTracker heapTwo
    [(1, (), ⟨10, 10, 50, 50⟩), (2, (), ⟨1, 2, 3, 4⟩)]
    ⟨[(1, ⟨10, 10, 50, 50⟩), (2, ⟨1, 2, 3, 4⟩)]⟩
    ((heapTwo.store 1 ⟨some ⟨10, 10, 50, 50⟩, 1⟩).store 2 ⟨some ⟨1, 2, 3, 4⟩, 1⟩)
    rfl () [⟨9, 9, 9, 9⟩]

end Aggregator

end TrackingShim
